import Mathlib

/-!
Shallow embedding of `ros_pybullet_interface/scripts/ros_pybullet_interface_node.py`.

The Python node keeps a registry of pybullet objects (a `dict` subclass),
and exposes service handlers for adding, removing, reading and mutating
objects.  We embed the registry and the five service handlers as pure
state-passing functions.  Python exceptions are modelled by `Except`:
a handler result of `.error e` means the exception `e` escaped the
handler uncaught; `.ok resp` means the handler returned the response
`resp`.  Every operation also returns the (possibly mutated) node state,
since Python exceptions do not roll back mutations.

Object kinds, the pybullet backend (body poses and per-link dynamics),
and the rpbi object methods `get_dynamics` / `change_dynamics` /
`destroy` are not part of the source file; where needed they are
modelled from the spec, and each such definition says so in its doc
comment.
-/

deriving instance DecidableEq for Except

/-- A python value that can appear in an options list: the source only
distinguishes strings (`is_list_str`) and integers (`is_list_int`). -/
inductive PyVal
  | int (n : Int)
  | str (s : String)
deriving DecidableEq, Repr

/-- The dynamically-typed argument of `Node.parse_options`. -/
inductive OptionsArg
  | int (n : Int)
  | str (s : String)
  | list (l : List PyVal)
deriving DecidableEq, Repr

/-- A python exception, by class (payload = the message where the source
builds one). -/
inductive PyErr
  | keyError (msg : String)
  | valueError (msg : String)
  | indexError
  | attributeError (name : String)
  | unsupportedOperation
  | invalidLinkIndex
  | backendError (msg : String)
deriving DecidableEq, Repr

/-- `str(err)` as used by the handlers when reporting a caught exception. -/
def PyErr.toMessage : PyErr → String
  | .keyError m => m
  | .valueError m => m
  | .indexError => "list index out of range"
  | .attributeError n => "module pybullet has no attribute " ++ n
  | .unsupportedOperation => "unsupported operation"
  | .invalidLinkIndex => "invalid link index"
  | .backendError m => m

/-- The closed set of object kinds (the classes imported from `rpbi`). -/
inductive ObjectKind
  | visual
  | collision
  | dynamic
  | robot
  | softBody
  | urdf
  | sensor
deriving DecidableEq, Repr

/-- `isinstance(object, PybulletCollisionObject)` in the handlers. -/
def ObjectKind.isCollision : ObjectKind → Bool
  | .collision => true
  | _ => false

/-- `isinstance(object, PybulletDynamicObject)` in the handlers. -/
def ObjectKind.isDynamic : ObjectKind → Bool
  | .dynamic => true
  | _ => false

/-- Modelled from the spec: kinds with link-indexed dynamics are the
rigid-body kinds Collision, Dynamic and Robot; the concrete classes live
in `rpbi`, outside this source file. -/
def ObjectKind.hasDynamics : ObjectKind → Bool
  | .collision => true
  | .dynamic => true
  | .robot => true
  | _ => false

/-- A position, as 3 coordinates. -/
abbrev Vec3 := ℚ × ℚ × ℚ

/-- An orientation quaternion, as 4 components. -/
abbrev Quat := ℚ × ℚ × ℚ × ℚ

/-- The per-link dynamics properties, with the nine fields the handlers
copy between the backend dictionary and the `ObjectDynamics` message. -/
structure DynamicsProps where
  mass : ℚ
  lateralFriction : ℚ
  localInertiaDiagonal : Vec3
  restitution : ℚ
  rollingFriction : ℚ
  spinningFriction : ℚ
  contactDamping : ℚ
  contactStiffness : ℚ
  collisionMargin : ℚ
deriving DecidableEq, Repr

/-- The dictionary passed to `object.change_dynamics`: a subset of
dynamics fields (a missing key = field not written). -/
structure DynamicsUpdate where
  mass : Option ℚ := none
  lateralFriction : Option ℚ := none
  localInertiaDiagonal : Option Vec3 := none
  restitution : Option ℚ := none
  rollingFriction : Option ℚ := none
  spinningFriction : Option ℚ := none
  contactDamping : Option ℚ := none
  contactStiffness : Option ℚ := none
  collisionMargin : Option ℚ := none
deriving DecidableEq, Repr

/-- Modelled from the spec: applying a partial dynamics update to the
current properties writes exactly the supplied fields and leaves every
unsupplied field at its prior value. -/
def DynamicsUpdate.applyTo (u : DynamicsUpdate) (d : DynamicsProps) : DynamicsProps where
  mass := u.mass.getD d.mass
  lateralFriction := u.lateralFriction.getD d.lateralFriction
  localInertiaDiagonal := u.localInertiaDiagonal.getD d.localInertiaDiagonal
  restitution := u.restitution.getD d.restitution
  rollingFriction := u.rollingFriction.getD d.rollingFriction
  spinningFriction := u.spinningFriction.getD d.spinningFriction
  contactDamping := u.contactDamping.getD d.contactDamping
  contactStiffness := u.contactStiffness.getD d.contactStiffness
  collisionMargin := u.collisionMargin.getD d.collisionMargin

/-- Association-list lookup with decidable key equality. -/
def alistFind {K V : Type} [DecidableEq K] (k : K) : List (K × V) → Option V
  | [] => none
  | (k', v) :: rest => if k' = k then some v else alistFind k rest

/-- Association-list write: replaces the first binding of `k`, or
prepends one if `k` is unbound. -/
def alistSet {K V : Type} [DecidableEq K] (k : K) (v : V) : List (K × V) → List (K × V)
  | [] => [(k, v)]
  | (k', v') :: rest => if k' = k then (k, v) :: rest else (k', v') :: alistSet k v rest

/-- Association-list delete: removes every binding of `k`. -/
def alistDel {K V : Type} [DecidableEq K] (k : K) : List (K × V) → List (K × V)
  | [] => []
  | (k', v') :: rest => if k' = k then alistDel k rest else (k', v') :: alistDel k rest

/-- The state the pybullet backend keeps per body: base poses and
per-(body, link) dynamics properties. -/
structure Backend where
  poses : List (Nat × (Vec3 × Quat))
  dynamics : List ((Nat × Int) × DynamicsProps)
deriving DecidableEq, Repr

/-- Modelled from the spec: `pybullet.resetBasePositionAndOrientation`
overwrites the backend pose of the given body; it is a backend call
error when the body handle is unknown to the backend. -/
def Backend.resetBasePositionAndOrientation (b : Backend) (bodyId : Nat)
    (pos : Vec3) (orn : Quat) : Except PyErr Backend :=
  match alistFind bodyId b.poses with
  | none => .error (.backendError "body unique id not found")
  | some _ => .ok { b with poses := alistSet bodyId (pos, orn) b.poses }

/-- An rpbi pybullet object as the handlers see it: its kind, its backend
body handle, and its cached `basePosition` / `baseOrientation`
attributes (which the get-position handler reads). -/
structure PyObject where
  kind : ObjectKind
  body_unique_id : Nat
  basePosition : Vec3
  baseOrientation : Quat
deriving DecidableEq, Repr

/-- Modelled from the spec: `object.get_dynamics(link_index)` reads the
current per-link dynamics from the backend; it fails with
UnsupportedOperation for kinds without link-indexed dynamics and with
InvalidLinkIndex when the link does not exist on the body. -/
def PyObject.get_dynamics (o : PyObject) (b : Backend) (link_index : Int) :
    Except PyErr DynamicsProps :=
  if o.kind.hasDynamics then
    match alistFind (o.body_unique_id, link_index) b.dynamics with
    | none => .error .invalidLinkIndex
    | some d => .ok d
  else .error .unsupportedOperation

/-- Modelled from the spec: `object.change_dynamics(props, link_index)`
writes the supplied subset of fields to the backend for the given link,
leaves unsupplied fields untouched, and fails with UnsupportedOperation
or InvalidLinkIndex like `get_dynamics`. -/
def PyObject.change_dynamics (o : PyObject) (b : Backend) (u : DynamicsUpdate)
    (link_index : Int) : Except PyErr Backend :=
  if o.kind.hasDynamics then
    match alistFind (o.body_unique_id, link_index) b.dynamics with
    | none => .error .invalidLinkIndex
    | some d =>
        .ok { b with
              dynamics := alistSet (o.body_unique_id, link_index) (u.applyTo d) b.dynamics }
  else .error .unsupportedOperation

/-- A configuration as the registry uses it: `config['name']`. -/
structure Config where
  name : String
deriving DecidableEq, Repr

/-- The node state the handlers mutate: the `PybulletObjects` registry
(a dict from name to object), the backend, and the ad-hoc `counter`. -/
structure NodeState where
  pybullet_objects : List (String × PyObject)
  backend : Backend
  counter : Nat
deriving DecidableEq, Repr

/-- An object constructor `object_type(pybullet, self.node, config)`:
external code that may construct a body (mutating the state) or raise. -/
abbrev Constructor := Config → NodeState → (Except PyErr PyObject) × NodeState

/-- An `object.destroy()` implementation: external rpbi code that
releases the backend resources of the object, or raises. -/
abbrev Destroy := PyObject → Backend → (Except PyErr Unit) × Backend

namespace PybulletObjects

/-- Embeds `PybulletObjects.__setitem__`: refuses a name that is already
bound, otherwise binds it. -/
def setitem (st : NodeState) (name : String) (obj : PyObject) :
    (Except PyErr Unit) × NodeState :=
  if (alistFind name st.pybullet_objects).isSome then
    (.error (.keyError (name ++ " already exists, pybullet objects must be given unique names!")), st)
  else
    (.ok (), { st with pybullet_objects := alistSet name obj st.pybullet_objects })

/-- Embeds `PybulletObjects.add`: checks the name, then constructs the
object (which may mutate backend state or raise), then stores it. -/
def add (mk : Constructor) (st : NodeState) (config : Config) :
    (Except PyErr Unit) × NodeState :=
  let name := config.name
  if (alistFind name st.pybullet_objects).isSome then
    (.error (.keyError (name ++ " already exists, pybullet objects must be given unique names!")), st)
  else
    match mk config st with
    | (.error e, st1) => (.error e, st1)
    | (.ok obj, st1) => setitem st1 name obj

/-- Embeds `PybulletObjects.__delitem__`: `self[name].destroy()` first
(a raise here aborts before the mapping is removed), then the unmap. -/
def delitem (destroy : Destroy) (st : NodeState) (name : String) :
    (Except PyErr Unit) × NodeState :=
  match alistFind name st.pybullet_objects with
  | none => (.error (.keyError name), st)
  | some obj =>
      match destroy obj st.backend with
      | (.error e, b1) => (.error e, { st with backend := b1 })
      | (.ok (), b1) =>
          (.ok (), { st with backend := b1,
                             pybullet_objects := alistDel name st.pybullet_objects })

end PybulletObjects

/-- Python's `s.split('|')`: splits on each pipe character, keeping
empty pieces, so the result is never the empty list (the empty string
splits to `[""]`). -/
def splitPipe (s : String) : List String :=
  (go s.data).map fun cs => String.mk cs
where
  /-- Split a character list at each pipe. -/
  go : List Char → List (List Char)
  | [] => [[]]
  | c :: rest =>
    let r := go rest
    if c = '|' then [] :: r
    else
      match r with
      | [] => [[c]]
      | h :: t => (c :: h) :: t

/-- Embeds `Node.is_list_str`. -/
def is_list_str (ls : List PyVal) : Bool :=
  ls.all fun el => match el with | .str _ => true | .int _ => false

/-- Embeds `Node.is_list_int`. -/
def is_list_int (ls : List PyVal) : Bool :=
  ls.all fun el => match el with | .int _ => true | .str _ => false

/-- `getattr(pybullet, opt)` over a list: the backend flag namespace is
a partial map from names to integer flag values; an unknown name raises
AttributeError. -/
def resolveFlags (flagTable : String → Option Int) : List PyVal → Except PyErr (List PyVal)
  | [] => .ok []
  | .str s :: rest =>
      match flagTable s with
      | none => .error (.attributeError s)
      | some n =>
          match resolveFlags flagTable rest with
          | .error e => .error e
          | .ok tail => .ok (.int n :: tail)
  | .int n :: rest =>
      match resolveFlags flagTable rest with
      | .error e => .error e
      | .ok tail => .ok (.int n :: tail)

/-- `out = options[0]; for opt in options[1:]: out |= opt; return out`
(`options[0]` of an empty list raises IndexError). -/
def foldOrInts : List PyVal → Except PyErr Int
  | [] => .error .indexError
  | .int n :: rest =>
      .ok (rest.foldl (fun acc el => match el with | .int m => Int.lor acc m | .str _ => acc) n)
  | .str s :: _ => .error (.attributeError s)

/-- Embeds `Node.parse_options`, parameterised by the backend flag
namespace (the attributes of the `pybullet` module). -/
def parse_options (flagTable : String → Option Int) (options : OptionsArg) :
    Except PyErr Int :=
  match options with
  | .int n => .ok n
  | .str s => parseList flagTable ((splitPipe s).map PyVal.str)
  | .list l => parseList flagTable l
where
  /-- The list part of `parse_options`: resolve a list of names, then
  OR a list of ints, else ValueError. -/
  parseList (flagTable : String → Option Int) (l : List PyVal) : Except PyErr Int :=
    if is_list_str l then
      match resolveFlags flagTable l with
      | .error e => .error e
      | .ok resolved =>
          if is_list_int resolved then foldOrInts resolved
          else .error (.valueError "did not recognize options type!")
    else if is_list_int l then foldOrInts l
    else .error (.valueError "did not recognize options type!")

/-- The uniform `(success, message)` service response. -/
structure SrvResponse where
  success : Bool
  message : String
deriving DecidableEq, Repr

/-- `GetObjectDynamicsResponse`: success, message and an optional
`ObjectDynamics` payload. -/
structure GetObjectDynamicsResponse where
  success : Bool
  message : String
  object_dynamics : Option DynamicsProps := none
deriving DecidableEq, Repr

/-- Modelled from the spec: `GetObjectPositionResponse` carries success,
message, and optional position / orientation payload fields (the `.srv`
definition is not part of this source file); a field the handler does
not set stays unpopulated. -/
structure GetObjectPositionResponse where
  success : Bool
  message : String
  position : Option Vec3 := none
  orientation : Option Quat := none
deriving DecidableEq, Repr

/-- The `PybulletObject` part of an `AddPybulletObject` request: an
object-type code plus a filename or an inline config string (an empty
string is falsy in the handler's `if req.pybullet_object.filename:`). -/
structure PybulletObjectMsg where
  object_type : Int
  filename : String
  config : String
deriving DecidableEq, Repr

/-- The closed kind-code mapping of `service_add_pybullet_object`
(`PybulletObject.VISUAL` = 0 through `URDF` = 5). -/
def kindOfCode (code : Int) : Option ObjectKind :=
  if code = 0 then some .visual
  else if code = 1 then some .collision
  else if code = 2 then some .dynamic
  else if code = 3 then some .robot
  else if code = 4 then some .softBody
  else if code = 5 then some .urdf
  else none

namespace Node

/-- Embeds `Node.service_add_pybullet_object`: resolve the kind code,
load the config from the filename or the inline string (both external),
`pybullet_objects.add`, and catch every exception into a
`(success=False, str(err))` response. -/
def service_add_pybullet_object (loadConfig : String → Except PyErr Config)
    (loadConfigs : String → Except PyErr Config) (mk : ObjectKind → Constructor)
    (st : NodeState) (req : PybulletObjectMsg) :
    (Except PyErr SrvResponse) × NodeState :=
  match kindOfCode req.object_type with
  | none =>
      (.ok { success := false,
             message := "did not recognize object type, given " ++ toString req.object_type ++ ", expected either 0, 1, 2, 3. See PybulletObject.msg" }, st)
  | some k =>
      if req.filename ≠ "" then
        match loadConfig req.filename with
        | .error e => (.ok { success := false, message := e.toMessage }, st)
        | .ok cfg =>
            match PybulletObjects.add (mk k) st cfg with
            | (.error e, st1) => (.ok { success := false, message := e.toMessage }, st1)
            | (.ok (), st1) => (.ok { success := true, message := "added pybullet object" }, st1)
      else if req.config ≠ "" then
        match loadConfigs req.config with
        | .error e => (.ok { success := false, message := e.toMessage }, st)
        | .ok cfg =>
            match PybulletObjects.add (mk k) st cfg with
            | (.error e, st1) => (.ok { success := false, message := e.toMessage }, st1)
            | (.ok (), st1) => (.ok { success := true, message := "added pybullet object" }, st1)
      else
        (.ok { success := false,
               message := "failed to add pybullet object, neither filename of config was given in request!" }, st)

/-- Embeds `Node.service_get_pybullet_object_dynamics`: unknown names
get a failure response; otherwise the isinstance chain only changes the
message for kinds other than Collision/Dynamic, and the handler calls
`object.get_dynamics` with no try/except, so an exception there escapes
with `success` still True. -/
def service_get_pybullet_object_dynamics (st : NodeState)
    (object_name : String) (link_idx : Int) :
    (Except PyErr GetObjectDynamicsResponse) × NodeState :=
  match alistFind object_name st.pybullet_objects with
  | none =>
      (.ok { success := false, message := "did not recognize object name (get dynamics)",
             object_dynamics := none }, st)
  | some obj =>
      let message :=
        if obj.kind.isCollision || obj.kind.isDynamic then "got pybullet object dynamics"
        else "hi im here*************************************"
      match obj.get_dynamics st.backend link_idx with
      | .error e => (.error e, st)
      | .ok d =>
          (.ok { success := true, message := message, object_dynamics := some d }, st)

/-- Embeds `Node.service_get_pybullet_object_position`: unknown names
get a failure response; otherwise the handler reads the cached
`basePosition` / `baseOrientation` (only for logging), unconditionally
resets the backend pose of the body to the hard-coded values
`[0.6, 0.2, -0.09]` / `[0, 0, 0.707, -0.707]`, increments
`self.counter`, and returns success with no pose payload populated. -/
def service_get_pybullet_object_position (st : NodeState)
    (object_name : String) (link_idx : Int) :
    (Except PyErr GetObjectPositionResponse) × NodeState :=
  match alistFind object_name st.pybullet_objects with
  | none =>
      (.ok { success := false, message := "did not recognize object name (get position)" }, st)
  | some obj =>
      let message :=
        if obj.kind.isCollision || obj.kind.isDynamic then "got pybullet object position"
        else "hi im here*************************************"
      let new_position : Vec3 := (mkRat 6 10, mkRat 2 10, mkRat (-9) 100)
      let new_orientation : Quat := (0, 0, mkRat 707 1000, mkRat (-707) 1000)
      match st.backend.resetBasePositionAndOrientation obj.body_unique_id
              new_position new_orientation with
      | .error e => (.error e, st)
      | .ok b1 =>
          (.ok { success := true, message := message },
           { st with backend := b1, counter := st.counter + 1 })

/-- The nine-field dictionary `service_change_pybullet_object_dynamics`
builds: every field of the request message is copied unconditionally. -/
def dictOfMsg (m : DynamicsProps) : DynamicsUpdate where
  mass := some m.mass
  lateralFriction := some m.lateralFriction
  localInertiaDiagonal := some m.localInertiaDiagonal
  restitution := some m.restitution
  rollingFriction := some m.rollingFriction
  spinningFriction := some m.spinningFriction
  contactDamping := some m.contactDamping
  contactStiffness := some m.contactStiffness
  collisionMargin := some m.collisionMargin

/-- Embeds `Node.service_change_pybullet_object_dynamics`: unknown
names get a failure response; otherwise all nine message fields are
copied into the dictionary and `object.change_dynamics` is called with
no try/except, so an exception there escapes. -/
def service_change_pybullet_object_dynamics (st : NodeState)
    (object_name : String) (link_idx : Int) (object_dynamics_msg : DynamicsProps) :
    (Except PyErr SrvResponse) × NodeState :=
  match alistFind object_name st.pybullet_objects with
  | none =>
      (.ok { success := false, message := "did not recognize object name (change dynamics)" }, st)
  | some obj =>
      match obj.change_dynamics st.backend (dictOfMsg object_dynamics_msg) link_idx with
      | .error e => (.error e, st)
      | .ok b1 =>
          (.ok { success := true, message := "changed pybullet object dynamics" },
           { st with backend := b1 })

/-- Embeds `Node.service_remove_pybullet_object`: `del
self.pybullet_objects[name]` with KeyError reported as an unknown name
and any other exception reported as a failed removal; this handler
catches everything. -/
def service_remove_pybullet_object (destroy : Destroy) (st : NodeState)
    (name : String) : SrvResponse × NodeState :=
  match PybulletObjects.delitem destroy st name with
  | (.ok (), st1) => ({ success := true, message := "removed pybullet object" }, st1)
  | (.error (.keyError _), st1) =>
      ({ success := false, message := "given object " ++ name ++ " does not exist!" }, st1)
  | (.error e, st1) =>
      ({ success := false,
         message := "failed to remove Pybullet object, exception: " ++ e.toMessage }, st1)

end Node

/-! ## Example states used by concrete evaluations -/

/-- Example dynamics of the puck's base link: mass 5, friction 1. -/
def exPuckDyn : DynamicsProps where
  mass := 5
  lateralFriction := 1
  localInertiaDiagonal := (1, 1, 1)
  restitution := 0
  rollingFriction := 0
  spinningFriction := 0
  contactDamping := 0
  contactStiffness := 0
  collisionMargin := 0

/-- A dynamic object named puck with body handle 7. -/
def exPuck : PyObject where
  kind := .dynamic
  body_unique_id := 7
  basePosition := (1, 0, 0)
  baseOrientation := (0, 0, 0, 1)

/-- A visual object named wall with body handle 9: its kind has no
link-indexed dynamics. -/
def exWall : PyObject where
  kind := .visual
  body_unique_id := 9
  basePosition := (0, 0, 0)
  baseOrientation := (0, 0, 0, 1)

/-- A backend holding the poses of both bodies and the dynamics of the
puck's base link. -/
def exBackend : Backend where
  poses := [(7, ((1, 0, 0), (0, 0, 0, 1))), (9, ((0, 0, 0), (0, 0, 0, 1)))]
  dynamics := [((7, 0), exPuckDyn)]

/-- A node state with the puck and the wall registered. -/
def exState : NodeState where
  pybullet_objects := [("puck", exPuck), ("wall", exWall)]
  backend := exBackend
  counter := 0

/-- Whether a handler call produced a response, rather than letting a
python exception escape the handler. -/
def returnsResponse {α : Type} : Except PyErr α → Bool
  | .ok _ => true
  | .error _ => false

/-- A destroy implementation that always raises (a failed backend
removal), leaving the backend as it was. -/
def destroyFail : Destroy := fun _ b => (.error (.backendError "destroy failed"), b)

/-- The message of a ChangeDynamics request meant to set only the
lateral friction: every other field is left at the wire default 0
(a ROS message field cannot be omitted). -/
def exFrictionMsg : DynamicsProps where
  mass := 0
  lateralFriction := 2
  localInertiaDiagonal := (0, 0, 0)
  restitution := 0
  rollingFriction := 0
  spinningFriction := 0
  contactDamping := 0
  contactStiffness := 0
  collisionMargin := 0

/-- A fully-specified dynamics message used as a second request. -/
def exNewDyn : DynamicsProps where
  mass := 3
  lateralFriction := 4
  localInertiaDiagonal := (2, 2, 2)
  restitution := 1
  rollingFriction := 1
  spinningFriction := 1
  contactDamping := 1
  contactStiffness := 1
  collisionMargin := 1

/-- An example backend flag namespace: the flags A = 4 and B = 2. -/
def exFlagTable : String → Option Int := fun s =>
  if s = "A" then some 4 else if s = "B" then some 2 else none

/-! ## Claims -/

/-- C1: the claim says a successful GetPosition request is a pure read
that leaves the object's backend pose unchanged and mutates no other
node state.  The handler in the source is not: on the example state it
overwrites the backend pose of the queried body with the hard-coded
pose `[0.6, 0.2, -0.09]` / `[0, 0, 0.707, -0.707]` (so the stored pose
is no longer the pre-request pose `(1,0,0)`) and increments the node's
counter. -/
theorem get_position_is_not_a_pure_read :
    alistFind 7 (Node.service_get_pybullet_object_position exState "puck" 0).2.backend.poses
      = some ((mkRat 6 10, mkRat 2 10, mkRat (-9) 100), (0, 0, mkRat 707 1000, mkRat (-707) 1000))
    ∧ alistFind 7 (Node.service_get_pybullet_object_position exState "puck" 0).2.backend.poses
      ≠ alistFind 7 exState.backend.poses
    ∧ (Node.service_get_pybullet_object_position exState "puck" 0).2.counter
      = exState.counter + 1 := by
  decide

/-- C2: the claim says a GetPosition request for a registered name
returns success together with the object's position and orientation in
the response.  The handler in the source returns success with the pose
payload fields unpopulated: on the example state, the response for the
registered puck is success=true but position=none and orientation=none. -/
theorem get_position_response_has_no_payload :
    (Node.service_get_pybullet_object_position exState "puck" 0).1 =
      .ok { success := true, message := "got pybullet object position",
            position := none, orientation := none } := by
  decide

/-- C3: the claim says GetDynamics / ChangeDynamics on a kind without
link-indexed dynamics (e.g. a Visual object) returns success=false with
UnsupportedOperation and mutates nothing.  The source commented out the
type check that produced that failure response: the handlers proceed to
call `get_dynamics` / `change_dynamics` on the object, so the
UnsupportedOperation error escapes the handler uncaught instead of
being converted to a failure response (the state is indeed unchanged). -/
theorem dynamics_on_visual_object_escapes_uncaught :
    Node.service_get_pybullet_object_dynamics exState "wall" 0 =
      (.error .unsupportedOperation, exState)
    ∧ Node.service_change_pybullet_object_dynamics exState "wall" 0 exPuckDyn =
      (.error .unsupportedOperation, exState) := by
  decide

/-- C6: adding a config whose name is already registered fails with the
duplicate-name KeyError before any backend construction occurs (the
result does not depend on the constructor `mk`) and leaves the whole
node state, registry included, unchanged. -/
theorem add_duplicate_name_fails_before_construction (mk : Constructor)
    (st : NodeState) (config : Config)
    (h : (alistFind config.name st.pybullet_objects).isSome = true) :
    PybulletObjects.add mk st config =
      (.error (.keyError (config.name ++
        " already exists, pybullet objects must be given unique names!")), st) := by
  simp [PybulletObjects.add, h]

/-- Witness for C6: adding a second object named puck to the example
state fails with the duplicate-name KeyError and changes nothing,
whatever the constructor would have built. -/
theorem add_duplicate_name_fails_before_construction_witness :
    (alistFind (Config.mk "puck").name exState.pybullet_objects).isSome = true
    ∧ PybulletObjects.add (fun _ st => (.ok exWall, st)) exState (Config.mk "puck") =
        (.error (.keyError ("puck" ++
          " already exists, pybullet objects must be given unique names!")), exState) :=
  ⟨by decide,
   add_duplicate_name_fails_before_construction (fun _ st => (.ok exWall, st))
     exState (Config.mk "puck") (by decide)⟩

/-- C4 counterexample: the claim says every error arising while handling
a request, backend call failures included, is converted to a
(success=false, message) response and never escapes as an uncaught
exception.  The GetDynamics handler wraps nothing after the name check:
asking for a link the backend does not know on the registered puck makes
the InvalidLinkIndex error escape the handler uncaught. -/
theorem get_dynamics_backend_error_escapes :
    (Node.service_get_pybullet_object_dynamics exState "puck" 5).1 =
      .error .invalidLinkIndex := by
  decide

/-- C4 as amended: the AddObject handler catches every error (config
loading, duplicate name, construction) and always produces a response,
and the five handlers all answer an unknown object name with a
(success=false, message) response; but errors raised by the object or
backend calls in GetDynamics / ChangeDynamics / GetPosition escape
uncaught (see the counterexample). -/
theorem handlers_catch_or_return_failure
    (loadConfig loadConfigs : String → Except PyErr Config)
    (mk : ObjectKind → Constructor) (st : NodeState) (req : PybulletObjectMsg)
    (destroy : Destroy) (name : String) (link : Int) (msg : DynamicsProps)
    (h : alistFind name st.pybullet_objects = none) :
    returnsResponse (Node.service_add_pybullet_object loadConfig loadConfigs mk st req).1 = true
    ∧ (Node.service_get_pybullet_object_dynamics st name link).1 =
        .ok { success := false, message := "did not recognize object name (get dynamics)",
              object_dynamics := none }
    ∧ (Node.service_change_pybullet_object_dynamics st name link msg).1 =
        .ok { success := false, message := "did not recognize object name (change dynamics)" }
    ∧ (Node.service_get_pybullet_object_position st name link).1 =
        .ok { success := false, message := "did not recognize object name (get position)" }
    ∧ (Node.service_remove_pybullet_object destroy st name).1 =
        { success := false, message := "given object " ++ name ++ " does not exist!" } := by
  refine ⟨?_, ?_, ?_, ?_, ?_⟩
  · unfold Node.service_add_pybullet_object
    repeat' split
    all_goals rfl
  · simp [Node.service_get_pybullet_object_dynamics, h]
  · simp [Node.service_change_pybullet_object_dynamics, h]
  · simp [Node.service_get_pybullet_object_position, h]
  · simp [Node.service_remove_pybullet_object, PybulletObjects.delitem, h]

/-- Witness for C4: on the example state, the name ghost is unknown, the
AddObject handler responds for a concrete request, and each of the other
handlers answers the unknown name with a failure response. -/
theorem handlers_catch_or_return_failure_witness :
    alistFind "ghost" exState.pybullet_objects = none
    ∧ (returnsResponse (Node.service_add_pybullet_object
          (fun _ => .error (.backendError "no file")) (fun _ => .error (.backendError "no config"))
          (fun _ _ st => (.ok exWall, st)) exState
          { object_type := 1, filename := "f.yaml", config := "" }).1 = true
       ∧ (Node.service_get_pybullet_object_dynamics exState "ghost" 0).1 =
           .ok { success := false, message := "did not recognize object name (get dynamics)",
                 object_dynamics := none }
       ∧ (Node.service_change_pybullet_object_dynamics exState "ghost" 0 exNewDyn).1 =
           .ok { success := false, message := "did not recognize object name (change dynamics)" }
       ∧ (Node.service_get_pybullet_object_position exState "ghost" 0).1 =
           .ok { success := false, message := "did not recognize object name (get position)" }
       ∧ (Node.service_remove_pybullet_object destroyFail exState "ghost").1 =
           { success := false, message := "given object " ++ "ghost" ++ " does not exist!" }) :=
  ⟨by decide,
   handlers_catch_or_return_failure
     (fun _ => .error (.backendError "no file")) (fun _ => .error (.backendError "no config"))
     (fun _ _ st => (.ok exWall, st)) exState
     { object_type := 1, filename := "f.yaml", config := "" }
     destroyFail "ghost" 0 exNewDyn (by decide)⟩

/-- C5 counterexample: the claim says that when the destroy operation of
a registered object raises, the registry mapping is still removed.  In
the source, `__delitem__` calls `destroy()` before unmapping, so a raise
aborts the removal: with a destroy that always fails, removing the
registered puck reports failure and the puck is still registered. -/
theorem remove_failed_destroy_keeps_mapping :
    (Node.service_remove_pybullet_object destroyFail exState "puck").1.success = false
    ∧ alistFind "puck"
        (Node.service_remove_pybullet_object destroyFail exState "puck").2.pybullet_objects
      = some exPuck := by
  decide

/-- C5 as amended: when destroy raises, the failure message is surfaced
to the caller, but the registry mapping is NOT removed — the entry
remains bound, and only the backend reflects whatever destroy did
before failing. -/
theorem remove_failed_destroy_surfaces_error_and_keeps_entry
    (destroy : Destroy) (st : NodeState) (name : String) (obj : PyObject)
    (msg : String) (b1 : Backend)
    (hobj : alistFind name st.pybullet_objects = some obj)
    (hdes : destroy obj st.backend = (.error (.backendError msg), b1)) :
    Node.service_remove_pybullet_object destroy st name =
      ({ success := false,
         message := "failed to remove Pybullet object, exception: " ++ msg },
       { st with backend := b1 }) := by
  simp [Node.service_remove_pybullet_object, PybulletObjects.delitem, hobj, hdes,
        PyErr.toMessage]

/-- Witness for C5: removing the puck with the always-failing destroy
surfaces its message and leaves the state (registry included) as it
was. -/
theorem remove_failed_destroy_surfaces_error_and_keeps_entry_witness :
    alistFind "puck" exState.pybullet_objects = some exPuck
    ∧ Node.service_remove_pybullet_object destroyFail exState "puck" =
        ({ success := false,
           message := "failed to remove Pybullet object, exception: " ++ "destroy failed" },
         { exState with backend := exState.backend }) :=
  ⟨by decide,
   remove_failed_destroy_surfaces_error_and_keeps_entry destroyFail exState "puck" exPuck
     "destroy failed" exState.backend (by decide) rfl⟩

/-- Applying the dictionary that carries all nine message fields
replaces the stored properties with the message verbatim. -/
theorem dictOfMsg_applyTo (m d : DynamicsProps) :
    (Node.dictOfMsg m).applyTo d = m := rfl

/-- C7 counterexample: the claim says a dynamics field not supplied in a
ChangeDynamics request retains its prior value.  The wire message always
carries all nine fields and the handler copies every one of them, so a
request meant to set only the lateral friction (all other fields at the
wire default 0) overwrites the puck's prior mass 5 with 0. -/
theorem change_dynamics_clobbers_defaulted_fields :
    exPuckDyn.mass = 5
    ∧ (Node.service_change_pybullet_object_dynamics exState "puck" 0 exFrictionMsg).1 =
        .ok { success := true, message := "changed pybullet object dynamics" }
    ∧ (alistFind (7, 0)
         (Node.service_change_pybullet_object_dynamics exState "puck" 0 exFrictionMsg).2.backend.dynamics).map DynamicsProps.mass
      = some 0 := by
  decide

/-- C7 as amended: for a registered dynamics-capable object and an
existing link, ChangeDynamics succeeds and writes all nine fields of the
request message to that link verbatim — a field the client left at its
wire default is overwritten with that default, not retained — while the
registry, the poses, the counter and the dynamics of every other link
are left as they were (only the addressed binding is replaced). -/
theorem change_dynamics_writes_all_message_fields
    (st : NodeState) (name : String) (obj : PyObject) (link : Int)
    (msg d : DynamicsProps)
    (hobj : alistFind name st.pybullet_objects = some obj)
    (hkind : obj.kind.hasDynamics = true)
    (hd : alistFind (obj.body_unique_id, link) st.backend.dynamics = some d) :
    Node.service_change_pybullet_object_dynamics st name link msg =
      (.ok { success := true, message := "changed pybullet object dynamics" },
       { st with backend := { st.backend with
           dynamics := alistSet (obj.body_unique_id, link) msg st.backend.dynamics } }) := by
  simp [Node.service_change_pybullet_object_dynamics, PyObject.change_dynamics,
        hobj, hkind, hd, dictOfMsg_applyTo]

/-- Witness for C7: changing the puck's base-link dynamics to the fully
specified message stores that message verbatim at (7, 0) and touches
nothing else. -/
theorem change_dynamics_writes_all_message_fields_witness :
    alistFind "puck" exState.pybullet_objects = some exPuck
    ∧ exPuck.kind.hasDynamics = true
    ∧ alistFind (exPuck.body_unique_id, 0) exState.backend.dynamics = some exPuckDyn
    ∧ Node.service_change_pybullet_object_dynamics exState "puck" 0 exNewDyn =
        (.ok { success := true, message := "changed pybullet object dynamics" },
         { exState with backend := { exState.backend with
             dynamics := alistSet (exPuck.body_unique_id, 0) exNewDyn exState.backend.dynamics } }) :=
  ⟨by decide, by decide, by decide,
   change_dynamics_writes_all_message_fields exState "puck" exPuck 0 exNewDyn exPuckDyn
     (by decide) (by decide) (by decide)⟩

/-- C8: the option-flag normalizer maps a pipe-joined pair of flag names
to the same value as the list of the two backend flag values, namely
their bitwise OR, and returns a plain integer argument unchanged.
(The pipe split is the hypothesis `hs`; the witness instantiates it with
the literal string A|B.) -/
theorem parse_options_or_semantics (flagTable : String → Option Int)
    (A B s : String) (a b n : Int)
    (hA : flagTable A = some a) (hB : flagTable B = some b)
    (hs : splitPipe s = [A, B]) :
    parse_options flagTable (.str s) = .ok (Int.lor a b)
    ∧ parse_options flagTable (.list [.int a, .int b]) = .ok (Int.lor a b)
    ∧ parse_options flagTable (.int n) = .ok n := by
  refine ⟨?_, ?_, rfl⟩
  · simp [parse_options, hs, parse_options.parseList, is_list_str, is_list_int,
          resolveFlags, hA, hB, foldOrInts]
  · simp [parse_options, parse_options.parseList, is_list_str, is_list_int, foldOrInts]

/-- Witness for C8: with flags A = 4 and B = 2, the string A|B and the
list [4, 2] both normalize to 6, and 5 normalizes to itself. -/
theorem parse_options_or_semantics_witness :
    exFlagTable "A" = some 4
    ∧ exFlagTable "B" = some 2
    ∧ splitPipe "A|B" = ["A", "B"]
    ∧ (parse_options exFlagTable (.str "A|B") = .ok (Int.lor 4 2)
       ∧ parse_options exFlagTable (.list [.int 4, .int 2]) = .ok (Int.lor 4 2)
       ∧ parse_options exFlagTable (.int 5) = .ok 5) :=
  ⟨by decide, by decide, by decide,
   parse_options_or_semantics exFlagTable "A" "B" "A|B" 4 2 5
     (by decide) (by decide) (by decide)⟩

/-- The split of a string on pipes is never the empty list. -/
theorem splitPipe_go_ne_nil (cs : List Char) : splitPipe.go cs ≠ [] := by
  induction cs with
  | nil => simp [splitPipe.go]
  | cons c rest ih =>
    simp only [splitPipe.go]
    split
    · simp
    · cases h : splitPipe.go rest with
      | nil => simp
      | cons hd tl => simp [h]

/-- Resolving a list of names that all exist in the flag namespace
yields a list of integer values of the same length. -/
theorem resolveFlags_ok (flagTable : String → Option Int) (ns : List String)
    (hres : ∀ p ∈ ns, (flagTable p).isSome = true) :
    ∃ xs : List Int, resolveFlags flagTable (ns.map PyVal.str) = .ok (xs.map PyVal.int)
      ∧ xs.length = ns.length := by
  induction ns with
  | nil => exact ⟨[], rfl, rfl⟩
  | cons p rest ih =>
    have hp : (flagTable p).isSome = true := hres p (List.mem_cons_self p rest)
    obtain ⟨v, hv⟩ := Option.isSome_iff_exists.mp hp
    obtain ⟨xs, hxs, hlen⟩ := ih fun q hq => hres q (List.mem_cons_of_mem p hq)
    refine ⟨v :: xs, ?_, by simp [hlen]⟩
    simp [resolveFlags, hv, hxs]

/-- A nonempty all-integer list ORs to an integer (no IndexError). -/
theorem foldOrInts_ok (xs : List Int) (hne : xs ≠ []) :
    returnsResponse (foldOrInts (xs.map PyVal.int)) = true := by
  cases xs with
  | nil => exact absurd rfl hne
  | cons x rest => simp [foldOrInts, returnsResponse]

/-- A list of wrapped names passes `is_list_str`. -/
theorem is_list_str_map (ns : List String) : is_list_str (ns.map PyVal.str) = true := by
  simp [is_list_str, List.all_eq_true]

/-- A list of wrapped integers passes `is_list_int`. -/
theorem is_list_int_map (xs : List Int) : is_list_int (xs.map PyVal.int) = true := by
  simp [is_list_int, List.all_eq_true]

/-- A list containing an integer fails `is_list_str`. -/
theorem is_list_str_false_of_mem_int (l : List PyVal) (n : Int)
    (h : PyVal.int n ∈ l) : is_list_str l = false := by
  rw [is_list_str]
  apply List.all_eq_false.mpr
  exact ⟨PyVal.int n, h, by simp⟩

/-- A list containing a string fails `is_list_int`. -/
theorem is_list_int_false_of_mem_str (l : List PyVal) (s : String)
    (h : PyVal.str s ∈ l) : is_list_int l = false := by
  rw [is_list_int]
  apply List.all_eq_false.mpr
  exact ⟨PyVal.str s, h, by simp⟩

/-- C9 counterexample: the claim says the normalizer is total over the
accepted shapes, the empty list included, and that every other shape
fails with InvalidOptionValue (ValueError).  In the source the empty
list passes both shape checks and then `options[0]` raises IndexError,
and a list of names containing a name absent from the backend namespace
raises AttributeError — neither returns an integer nor a ValueError. -/
theorem parse_options_empty_list_raises_index_error :
    parse_options exFlagTable (.list []) = .error .indexError
    ∧ parse_options exFlagTable (.str "C") = .error (.attributeError "C") := by
  decide

/-- C9 as amended: the normalizer returns an integer for a plain
integer, for a pipe-delimited string whose pieces all resolve in the
backend flag namespace, for a nonempty list of resolvable names and for
a nonempty list of integers; a mixed list of names and integers fails
with the ValueError (InvalidOptionValue).  The empty list and
unresolvable names are excluded: they raise IndexError respectively
AttributeError (see the counterexample). -/
theorem parse_options_total_on_accepted_shapes (flagTable : String → Option Int)
    (n : Int) (s : String) (names : List String) (ints : List Int)
    (l : List PyVal) (nm : String) (i : Int)
    (hstr : ∀ p ∈ splitPipe s, (flagTable p).isSome = true)
    (hnames : names ≠ []) (hnres : ∀ p ∈ names, (flagTable p).isSome = true)
    (hints : ints ≠ []) (hmixs : PyVal.str nm ∈ l) (hmixi : PyVal.int i ∈ l) :
    parse_options flagTable (.int n) = .ok n
    ∧ returnsResponse (parse_options flagTable (.str s)) = true
    ∧ returnsResponse (parse_options flagTable (.list (names.map PyVal.str))) = true
    ∧ returnsResponse (parse_options flagTable (.list (ints.map PyVal.int))) = true
    ∧ parse_options flagTable (.list l) =
        .error (.valueError "did not recognize options type!") := by
  have names_case : ∀ ns : List String, ns ≠ [] → (∀ p ∈ ns, (flagTable p).isSome = true) →
      returnsResponse (parse_options.parseList flagTable (ns.map PyVal.str)) = true := by
    intro ns hne hres
    obtain ⟨xs, hxs, hlen⟩ := resolveFlags_ok flagTable ns hres
    have hxne : xs ≠ [] := by
      intro hx
      apply hne
      cases ns with
      | nil => rfl
      | cons q qs => rw [hx] at hlen; exact absurd hlen.symm (by simp)
    rw [parse_options.parseList, is_list_str_map, if_pos rfl, hxs]
    simp only [is_list_int_map, if_true]
    exact foldOrInts_ok xs hxne
  refine ⟨rfl, ?_, ?_, ?_, ?_⟩
  · rw [parse_options]
    exact names_case (splitPipe s) (splitPipe_go_ne_nil s.data ∘ by simp [splitPipe]) hstr
  · exact names_case names hnames hnres
  · rw [parse_options, parse_options.parseList]
    cases ints with
    | nil => exact absurd rfl hints
    | cons x rest =>
        rw [List.map_cons, is_list_str_false_of_mem_int _ x (List.mem_cons_self _ _),
            if_neg (by simp)]
        rw [show PyVal.int x :: rest.map PyVal.int = (x :: rest).map PyVal.int from rfl,
            is_list_int_map, if_pos rfl]
        exact foldOrInts_ok (x :: rest) (by simp)
  · rw [parse_options, parse_options.parseList,
        is_list_str_false_of_mem_int l i hmixi, if_neg (by simp),
        is_list_int_false_of_mem_str l nm hmixs, if_neg (by simp)]

/-- Witness for C9: with flags A = 4 and B = 2, the integer 5, the
string A|B, the name list [A, B], the integer list [4, 2] all normalize
to an integer, and the mixed list [A, 3] fails with the ValueError. -/
theorem parse_options_total_on_accepted_shapes_witness :
    (∀ p ∈ splitPipe "A|B", (exFlagTable p).isSome = true)
    ∧ (["A", "B"] : List String) ≠ []
    ∧ (∀ p ∈ (["A", "B"] : List String), (exFlagTable p).isSome = true)
    ∧ ([(4 : Int), 2] : List Int) ≠ []
    ∧ PyVal.str "A" ∈ [PyVal.str "A", PyVal.int 3]
    ∧ PyVal.int 3 ∈ [PyVal.str "A", PyVal.int 3]
    ∧ (parse_options exFlagTable (.int 5) = .ok 5
       ∧ returnsResponse (parse_options exFlagTable (.str "A|B")) = true
       ∧ returnsResponse (parse_options exFlagTable (.list ((["A", "B"] : List String).map PyVal.str))) = true
       ∧ returnsResponse (parse_options exFlagTable (.list (([(4 : Int), 2] : List Int).map PyVal.int))) = true
       ∧ parse_options exFlagTable (.list [PyVal.str "A", PyVal.int 3]) =
           .error (.valueError "did not recognize options type!")) :=
  ⟨by decide, by decide, by decide, by decide, by decide, by decide,
   parse_options_total_on_accepted_shapes exFlagTable 5 "A|B" ["A", "B"] [4, 2]
     [PyVal.str "A", PyVal.int 3] "A" 3
     (by decide) (by decide) (by decide) (by decide) (by decide) (by decide)⟩
